import Mathlib

set_option maxHeartbeats 1000000

/-!
Shallow embedding of the unified socket-transmission layer of libmicrohttpd,
file `src/microhttpd/mhd_send.c` (functions `pre_send_setopt`,
`post_send_setopt`, `MHD_send_on_connection_`, `MHD_send_on_connection2_`,
`MHD_send_sendfile_`).

Conditional compilation is modelled by a `Platform` record of capability
flags plus a `SendfileVariant` selector; the raw socket / TLS / sendfile
primitives are modelled as oracle inputs (their result is a parameter of the
embedded function), and the success of the `setsockopt`-style buffering
primitives is likewise a boolean parameter.  Machine integers: `uint64_t`
arithmetic is taken modulo `2 ^ 64`; `ssize_t` results are `Int`.
-/

/-- Chunk size used by `MHD_send_sendfile_` (`MHD_SENFILE_CHUNK_`, 128 KiB). -/
def MHD_SENFILE_CHUNK_ : Nat := 0x20000

/-- Chunk size for thread-per-connection (`MHD_SENFILE_CHUNK_THR_P_C_`, 2 MiB). -/
def MHD_SENFILE_CHUNK_THR_P_C_ : Nat := 0x200000

/-- Modulus of C `uint64_t` arithmetic. -/
def UINT64_MOD : Nat := 2 ^ 64

/-- C `uint64_t` addition (wraps modulo `2 ^ 64`). -/
def add64 (a b : Nat) : Nat := (a + b) % UINT64_MOD

/-- C `uint64_t` subtraction (wraps modulo `2 ^ 64`). -/
def sub64 (a b : Nat) : Nat := (a % UINT64_MOD + (UINT64_MOD - b % UINT64_MOD)) % UINT64_MOD

/-- Modelled from the spec: the pseudo-error sentinel `MHD_ERR_AGAIN_` comes from
`mhd_sockets.h`, which is not among the provided sources.  The spec fixes a vocabulary
of failure kinds that are distinct from each other, from every non-negative byte count
and from the plain native failure indicator `-1`; the value follows the upstream header. -/
def MHD_ERR_AGAIN_ : Int := -3073

/-- Modelled from the spec: sentinel `MHD_ERR_CONNRESET_` from `mhd_sockets.h`
(not among the provided sources); see `MHD_ERR_AGAIN_`. -/
def MHD_ERR_CONNRESET_ : Int := -3074

/-- Modelled from the spec: sentinel `MHD_ERR_NOTCONN_` from `mhd_sockets.h`
(not among the provided sources); see `MHD_ERR_AGAIN_`. -/
def MHD_ERR_NOTCONN_ : Int := -3075

/-- Modelled from the spec: sentinel `MHD_ERR_BADF_` from `mhd_sockets.h`
(not among the provided sources); see `MHD_ERR_AGAIN_`. -/
def MHD_ERR_BADF_ : Int := -3077

/-- Compile-time platform capabilities of `mhd_send.c`, as a runtime record. -/
structure Platform where
  /-- `MHD_USE_MSG_MORE` is defined (plain sends use the `MSG_MORE` flag). -/
  useMsgMore : Bool
  /-- `MHD_TCP_CORK_NOPUSH` is defined (a cork/no-push socket option exists). -/
  tcpCorkNopush : Bool
  /-- `EPOLL_SUPPORT` is enabled. -/
  epollSupport : Bool
  /-- `HTTPS_SUPPORT` is compiled in. -/
  httpsSupport : Bool
  /-- `SSIZE_MAX` of the platform. -/
  ssize_max : Nat
  /-- `MHD_SCKT_SEND_MAX_SIZE_` of the platform. -/
  sckt_send_max : Nat
  /-- `SIZE_MAX` of the platform (value of `(size_t) -1`). -/
  size_t_max : Nat
  deriving DecidableEq

/-- The part of `struct MHD_Response` read by this layer. -/
structure Response where
  /-- `fd_off`: offset of the response data in the backing file. -/
  fd_off : Nat
  /-- `total_size`: total size of the response. -/
  total_size : Nat
  deriving DecidableEq

/-- The part of `struct MHD_Connection` read or written by `mhd_send.c`. -/
structure Connection where
  /-- `socket_fd != MHD_INVALID_SOCKET`. -/
  socket_valid : Bool
  /-- `state == MHD_CONNECTION_CLOSED`. -/
  state_closed : Bool
  /-- cached corked state `sk_corked`. -/
  sk_corked : Bool
  /-- cached no-delay state `sk_nodelay`. -/
  sk_nodelay : Bool
  /-- the `MHD_EPOLL_STATE_WRITE_READY` bit of `epoll_state`. -/
  epoll_write_ready : Bool
  /-- `resp_sender == MHD_resp_sender_sendfile` (`false` means `MHD_resp_sender_std`). -/
  resp_sender_sendfile : Bool
  /-- `response_write_position`. -/
  response_write_position : Nat
  /-- the attached response. -/
  response : Response
  /-- `daemon->options & MHD_USE_TLS`. -/
  opts_tls : Bool
  /-- `daemon->options & MHD_USE_THREAD_PER_CONNECTION`. -/
  opts_thread_per_conn : Bool
  deriving DecidableEq

/-- Socket error codes distinguished by `mhd_send.c` (`EAGAIN` stands for the
whole `MHD_SCKT_ERR_IS_EAGAIN_` class, `ECONNRESET` for `MHD_SCKT_ECONNRESET_`). -/
inductive SockErr where
  | EAGAIN | EINTR | ECONNRESET | EPIPE | ENOTCONN | EBADF
  | EINVAL | EAFNOSUPPORT | EOPNOTSUPP | ENOTSUP | EBUSY | EOTHER
  deriving DecidableEq

/-- Result classes of `gnutls_record_send` distinguished by the code. -/
inductive TlsErr where
  | eAgain | eInterrupted | eOther
  deriving DecidableEq

/-- Result of a buffering-mode controller call: the updated connection plus
which underlying mode-setting primitive (if any) was invoked. -/
structure SetoptResult where
  conn : Connection
  corkCalled : Bool
  nodelayCalled : Bool
  deriving DecidableEq

/-- `pre_send_setopt` from `mhd_send.c`.  `corkOk` models a successful
(non-zero) return of `MHD_socket_cork_`; `nodelayOk` models a successful
(zero) return of `MHD_socket_set_nodelay_`.  All `errno` branches of the
source merely log and fall through, leaving the cache unchanged. -/
def pre_send_setopt (plat : Platform) (c : Connection)
    (plain_send push_data : Bool) (corkOk nodelayOk : Bool) : SetoptResult :=
  let buffer_data := ! push_data
  if plat.useMsgMore && plain_send then
    ⟨c, false, false⟩
  else if plat.tcpCorkNopush then
    if c.sk_corked == buffer_data then ⟨c, false, false⟩
    else if push_data then ⟨c, false, false⟩
    else if corkOk then ⟨{ c with sk_corked := buffer_data }, true, false⟩
    else ⟨c, true, false⟩
  else
    if c.sk_nodelay == push_data then ⟨c, false, false⟩
    else if nodelayOk then ⟨{ c with sk_nodelay := push_data }, false, true⟩
    else ⟨c, false, true⟩

/-- `post_send_setopt` from `mhd_send.c`.  On platforms without
`MHD_TCP_CORK_NOPUSH` the function body is empty. -/
def post_send_setopt (plat : Platform) (c : Connection)
    (plain_send push_data : Bool) (corkOk : Bool) : SetoptResult :=
  let buffer_data := ! push_data
  if plat.useMsgMore && plain_send then
    ⟨c, false, false⟩
  else if plat.tcpCorkNopush then
    if c.sk_corked == buffer_data then ⟨c, false, false⟩
    else if buffer_data then ⟨c, false, false⟩
    else if corkOk then ⟨{ c with sk_corked := buffer_data }, true, false⟩
    else ⟨c, true, false⟩
  else ⟨c, false, false⟩

/-- `enum MHD_SendSocketOptions` from `mhd_send.h`. -/
inductive MHD_SendSocketOptions where
  | MHD_SSO_PUSH_DATA | MHD_SSO_PREFER_BUFF | MHD_SSO_HDR_CORK
  deriving DecidableEq

/-- The `switch (options)` of `MHD_send_on_connection_` resolving the send
policy to the `push_data` boolean. -/
def resolve_push_data (options : MHD_SendSocketOptions) (buffer_size : Nat) : Bool :=
  match options with
  | .MHD_SSO_PUSH_DATA => true
  | .MHD_SSO_PREFER_BUFF => false
  | .MHD_SSO_HDR_CORK => decide (buffer_size > 1024)

/-- `MHD_send_on_connection_` from `mhd_send.c`.  `tlsRes` is the oracle for
`gnutls_record_send` (bytes sent, or the error class), `sockRes` the oracle
for `MHD_send4_` (bytes sent, or the `errno` class on a negative return). -/
def MHD_send_on_connection_ (plat : Platform) (c : Connection)
    (buffer_size : Nat) (options : MHD_SendSocketOptions)
    (tlsRes : Except TlsErr Nat) (sockRes : Except SockErr Nat)
    (preCorkOk preNodelayOk postCorkOk : Bool) : Int × Connection :=
  let tls_conn := plat.httpsSupport && c.opts_tls
  if !c.socket_valid || c.state_closed then
    (MHD_ERR_NOTCONN_, c)
  else
    let push_data := resolve_push_data options buffer_size
    let c1 := (pre_send_setopt plat c (! tls_conn) push_data preCorkOk preNodelayOk).conn
    if tls_conn then
      let bsz := min buffer_size plat.ssize_max
      match tlsRes with
      | .error .eAgain =>
          (MHD_ERR_AGAIN_,
           if plat.epollSupport then { c1 with epoll_write_ready := false } else c1)
      | .error .eInterrupted => (MHD_ERR_AGAIN_, c1)
      | .error .eOther => (MHD_ERR_NOTCONN_, c1)
      | .ok n =>
          let c2 := (post_send_setopt plat c1 tls_conn (push_data && (bsz == n)) postCorkOk).conn
          (Int.ofNat n, c2)
    else
      let bsz := min buffer_size plat.sckt_send_max
      match sockRes with
      | .error e =>
          if e == .EAGAIN then
            (MHD_ERR_AGAIN_,
             if plat.epollSupport then { c1 with epoll_write_ready := false } else c1)
          else if e == .EINTR then (MHD_ERR_AGAIN_, c1)
          else if e == .ECONNRESET then (MHD_ERR_CONNRESET_, c1)
          else (MHD_ERR_NOTCONN_, c1)
      | .ok n =>
          let c2 := if plat.epollSupport && decide (bsz > n) then
              { c1 with epoll_write_ready := false } else c1
          let c3 := (post_send_setopt plat c2 tls_conn (push_data && (bsz == n)) postCorkOk).conn
          (Int.ofNat n, c3)

/-- `MHD_send_on_connection2_` from `mhd_send.c`.  `hasVec` models
`HAVE_SENDMSG || HAVE_WRITEV`; `vecRes` is the oracle for the
`sendmsg`/`writev` call (bytes sent, or the `errno` class on a `-1` return).
On a non-`EAGAIN` failure the source falls through and returns the raw `-1`,
first calling `post_send_setopt` with `header_size + buffer_size == (size_t) -1`. -/
def MHD_send_on_connection2_ (plat : Platform) (hasVec : Bool) (c : Connection)
    (header_size buffer_size : Nat)
    (vecRes : Except SockErr Nat)
    (tlsRes : Except TlsErr Nat) (sockRes : Except SockErr Nat)
    (preCorkOk preNodelayOk postCorkOk : Bool) : Int × Connection :=
  let tls_conn := plat.httpsSupport && c.opts_tls
  if tls_conn then
    MHD_send_on_connection_ plat c header_size .MHD_SSO_HDR_CORK tlsRes sockRes
      preCorkOk preNodelayOk postCorkOk
  else if hasVec then
    let c1 := (pre_send_setopt plat c (! tls_conn) true preCorkOk preNodelayOk).conn
    match vecRes with
    | .error e =>
        if e == .EAGAIN then (MHD_ERR_AGAIN_, c1)
        else
          let c2 := (post_send_setopt plat c1 (! tls_conn)
              (header_size + buffer_size == plat.size_t_max) postCorkOk).conn
          (-1, c2)
    | .ok n =>
        let c2 := (post_send_setopt plat c1 (! tls_conn)
            (header_size + buffer_size == n) postCorkOk).conn
        (Int.ofNat n, c2)
  else
    MHD_send_on_connection_ plat c header_size .MHD_SSO_HDR_CORK tlsRes sockRes
      preCorkOk preNodelayOk postCorkOk

/-- The four conditional-compilation variants of `MHD_send_sendfile_`
(`HAVE_LINUX_SENDFILE`, `HAVE_SOLARIS_SENDFILE` — both inside
`MHD_LINUX_SOLARIS_SENDFILE` —, `HAVE_FREEBSD_SENDFILE`, `HAVE_DARWIN_SENDFILE`). -/
inductive SendfileVariant where
  | linux | solaris | freebsd | darwin
  deriving DecidableEq

/-- Oracle for the native `sendfile` call.  For failures on the FreeBSD and
Darwin variants, `bytes` is the partial progress reported through the
`sent_bytes` / `len` out-parameter; on success, `bytes` is the amount sent. -/
structure SfRes where
  fail : Bool
  err : SockErr
  bytes : Nat
  deriving DecidableEq

/-- `used_thr_p_c ? MHD_SENFILE_CHUNK_THR_P_C_ : MHD_SENFILE_CHUNK_` of
`MHD_send_sendfile_`. -/
def sendfile_chunk_size (c : Connection) : Nat :=
  if c.opts_thread_per_conn then MHD_SENFILE_CHUNK_THR_P_C_ else MHD_SENFILE_CHUNK_

/-- `left = connection->response->total_size - connection->response_write_position`
of `MHD_send_sendfile_` (C `uint64_t` subtraction). -/
def sendfile_left (c : Connection) : Nat :=
  sub64 c.response.total_size c.response_write_position

/-- `send_size = (left > chunk_size) ? chunk_size : (size_t) left` of
`MHD_send_sendfile_`: the length handed to the native zero-copy primitive. -/
def sendfile_send_size (c : Connection) : Nat :=
  if sendfile_left c > sendfile_chunk_size c then sendfile_chunk_size c else sendfile_left c

/-- `offsetu64 = connection->response_write_position + connection->response->fd_off`
of `MHD_send_sendfile_` (C `uint64_t` addition). -/
def sendfile_offsetu64 (c : Connection) : Nat :=
  add64 c.response_write_position c.response.fd_off

/-- `MHD_send_sendfile_` from `mhd_send.c`, parameterized by the platform
variant and by `max_off_t` (`OFF_T_MAX` or `OFF64_T_MAX`, depending on
`HAVE_SENDFILE64`).  `sf` is the oracle for the native `sendfile` call. -/
def MHD_send_sendfile_ (plat : Platform) (variant : SendfileVariant) (max_off_t : Nat)
    (c : Connection) (sf : SfRes)
    (preCorkOk preNodelayOk postCorkOk : Bool) : Int × Connection :=
  let c1 := (pre_send_setopt plat c false true preCorkOk preNodelayOk).conn
  let offsetu64 := sendfile_offsetu64 c1
  let left := sendfile_left c1
  let send_size := sendfile_send_size c1
  if max_off_t < offsetu64 then
    (MHD_ERR_AGAIN_, { c1 with resp_sender_sendfile := false })
  else
    match variant with
    | .linux =>
        if sf.fail then
          if sf.err == .EAGAIN then
            (MHD_ERR_AGAIN_,
             if plat.epollSupport then { c1 with epoll_write_ready := false } else c1)
          else if sf.err == .EINTR then (MHD_ERR_AGAIN_, c1)
          else if sf.err == .EBADF then (MHD_ERR_BADF_, c1)
          else (MHD_ERR_AGAIN_, { c1 with resp_sender_sendfile := false })
        else
          let c2 := if plat.epollSupport && decide (send_size > sf.bytes) then
              { c1 with epoll_write_ready := false } else c1
          let c3 := (post_send_setopt plat c2 false (left == sf.bytes) postCorkOk).conn
          (Int.ofNat sf.bytes, c3)
    | .solaris =>
        if sf.fail then
          if sf.err == .EAGAIN then
            (MHD_ERR_AGAIN_,
             if plat.epollSupport then { c1 with epoll_write_ready := false } else c1)
          else if sf.err == .EINTR then (MHD_ERR_AGAIN_, c1)
          else if sf.err == .EAFNOSUPPORT || sf.err == .EINVAL || sf.err == .EOPNOTSUPP then
            (MHD_ERR_AGAIN_, { c1 with resp_sender_sendfile := false })
          else if sf.err == .ENOTCONN || sf.err == .EPIPE then (MHD_ERR_CONNRESET_, c1)
          else (MHD_ERR_BADF_, c1)
        else
          let c2 := if plat.epollSupport && decide (send_size > sf.bytes) then
              { c1 with epoll_write_ready := false } else c1
          let c3 := (post_send_setopt plat c2 false (left == sf.bytes) postCorkOk).conn
          (Int.ofNat sf.bytes, c3)
    | .freebsd =>
        if sf.fail then
          if sf.err == .EAGAIN || sf.err == .EINTR || sf.err == .EBUSY then
            if sf.bytes != 0 then (Int.ofNat sf.bytes, c1)
            else (MHD_ERR_AGAIN_, c1)
          else (MHD_ERR_AGAIN_, { c1 with resp_sender_sendfile := false })
        else
          let c3 := (post_send_setopt plat c1 false (left == sf.bytes) postCorkOk).conn
          (Int.ofNat sf.bytes, c3)
    | .darwin =>
        if sf.fail then
          if sf.err == .EAGAIN || sf.err == .EINTR then
            if sf.bytes != 0 then (Int.ofNat sf.bytes, c1)
            else (MHD_ERR_AGAIN_, c1)
          else if sf.err == .ENOTCONN || sf.err == .EPIPE then (MHD_ERR_CONNRESET_, c1)
          else if sf.err == .ENOTSUP || sf.err == .EOPNOTSUPP then
            (MHD_ERR_AGAIN_, { c1 with resp_sender_sendfile := false })
          else (MHD_ERR_BADF_, c1)
        else
          let c3 := (post_send_setopt plat c1 false (left == sf.bytes) postCorkOk).conn
          (Int.ofNat sf.bytes, c3)

/-- A platform fixture: plaintext-only, no `MSG_MORE`, no cork primitive,
epoll enabled. -/
def plainPlat : Platform :=
  { useMsgMore := false, tcpCorkNopush := false, epollSupport := true,
    httpsSupport := false, ssize_max := 2 ^ 63 - 1,
    sckt_send_max := 2 ^ 30, size_t_max := 2 ^ 64 - 1 }

/-- A response fixture: 100 bytes, no base offset. -/
def baseResp : Response := { fd_off := 0, total_size := 100 }

/-- A connection fixture: healthy plaintext connection at write position 0,
still on the zero-copy sender. -/
def baseConn : Connection :=
  { socket_valid := true, state_closed := false, sk_corked := false,
    sk_nodelay := false, epoll_write_ready := true, resp_sender_sendfile := true,
    response_write_position := 0, response := baseResp,
    opts_tls := false, opts_thread_per_conn := false }

/-! ### Frame lemmas for the buffering-mode controller

`pre_send_setopt` can only write `sk_corked` and `sk_nodelay`;
`post_send_setopt` can only write `sk_corked`.  Every other connection field
passes through unchanged. -/

@[simp] theorem pre_conn_socket_valid (p : Platform) (c : Connection) (ps pd o1 o2 : Bool) :
    (pre_send_setopt p c ps pd o1 o2).conn.socket_valid = c.socket_valid := by
  unfold pre_send_setopt; dsimp only; repeat' split
  all_goals rfl

@[simp] theorem pre_conn_state_closed (p : Platform) (c : Connection) (ps pd o1 o2 : Bool) :
    (pre_send_setopt p c ps pd o1 o2).conn.state_closed = c.state_closed := by
  unfold pre_send_setopt; dsimp only; repeat' split
  all_goals rfl

@[simp] theorem pre_conn_epoll (p : Platform) (c : Connection) (ps pd o1 o2 : Bool) :
    (pre_send_setopt p c ps pd o1 o2).conn.epoll_write_ready = c.epoll_write_ready := by
  unfold pre_send_setopt; dsimp only; repeat' split
  all_goals rfl

@[simp] theorem pre_conn_resp_sender (p : Platform) (c : Connection) (ps pd o1 o2 : Bool) :
    (pre_send_setopt p c ps pd o1 o2).conn.resp_sender_sendfile = c.resp_sender_sendfile := by
  unfold pre_send_setopt; dsimp only; repeat' split
  all_goals rfl

@[simp] theorem pre_conn_write_position (p : Platform) (c : Connection) (ps pd o1 o2 : Bool) :
    (pre_send_setopt p c ps pd o1 o2).conn.response_write_position
      = c.response_write_position := by
  unfold pre_send_setopt; dsimp only; repeat' split
  all_goals rfl

@[simp] theorem pre_conn_response (p : Platform) (c : Connection) (ps pd o1 o2 : Bool) :
    (pre_send_setopt p c ps pd o1 o2).conn.response = c.response := by
  unfold pre_send_setopt; dsimp only; repeat' split
  all_goals rfl

@[simp] theorem pre_conn_opts_tls (p : Platform) (c : Connection) (ps pd o1 o2 : Bool) :
    (pre_send_setopt p c ps pd o1 o2).conn.opts_tls = c.opts_tls := by
  unfold pre_send_setopt; dsimp only; repeat' split
  all_goals rfl

@[simp] theorem pre_conn_thr_p_c (p : Platform) (c : Connection) (ps pd o1 o2 : Bool) :
    (pre_send_setopt p c ps pd o1 o2).conn.opts_thread_per_conn
      = c.opts_thread_per_conn := by
  unfold pre_send_setopt; dsimp only; repeat' split
  all_goals rfl

@[simp] theorem post_conn_socket_valid (p : Platform) (c : Connection) (ps pd o1 : Bool) :
    (post_send_setopt p c ps pd o1).conn.socket_valid = c.socket_valid := by
  unfold post_send_setopt; dsimp only; repeat' split
  all_goals rfl

@[simp] theorem post_conn_state_closed (p : Platform) (c : Connection) (ps pd o1 : Bool) :
    (post_send_setopt p c ps pd o1).conn.state_closed = c.state_closed := by
  unfold post_send_setopt; dsimp only; repeat' split
  all_goals rfl

@[simp] theorem post_conn_sk_nodelay (p : Platform) (c : Connection) (ps pd o1 : Bool) :
    (post_send_setopt p c ps pd o1).conn.sk_nodelay = c.sk_nodelay := by
  unfold post_send_setopt; dsimp only; repeat' split
  all_goals rfl

@[simp] theorem post_conn_epoll (p : Platform) (c : Connection) (ps pd o1 : Bool) :
    (post_send_setopt p c ps pd o1).conn.epoll_write_ready = c.epoll_write_ready := by
  unfold post_send_setopt; dsimp only; repeat' split
  all_goals rfl

@[simp] theorem post_conn_resp_sender (p : Platform) (c : Connection) (ps pd o1 : Bool) :
    (post_send_setopt p c ps pd o1).conn.resp_sender_sendfile = c.resp_sender_sendfile := by
  unfold post_send_setopt; dsimp only; repeat' split
  all_goals rfl

@[simp] theorem post_conn_write_position (p : Platform) (c : Connection) (ps pd o1 : Bool) :
    (post_send_setopt p c ps pd o1).conn.response_write_position
      = c.response_write_position := by
  unfold post_send_setopt; dsimp only; repeat' split
  all_goals rfl

@[simp] theorem post_conn_response (p : Platform) (c : Connection) (ps pd o1 : Bool) :
    (post_send_setopt p c ps pd o1).conn.response = c.response := by
  unfold post_send_setopt; dsimp only; repeat' split
  all_goals rfl

@[simp] theorem post_conn_opts_tls (p : Platform) (c : Connection) (ps pd o1 : Bool) :
    (post_send_setopt p c ps pd o1).conn.opts_tls = c.opts_tls := by
  unfold post_send_setopt; dsimp only; repeat' split
  all_goals rfl

@[simp] theorem post_conn_thr_p_c (p : Platform) (c : Connection) (ps pd o1 : Bool) :
    (post_send_setopt p c ps pd o1).conn.opts_thread_per_conn
      = c.opts_thread_per_conn := by
  unfold post_send_setopt; dsimp only; repeat' split
  all_goals rfl

/-- A failed cork call and a failed no-delay call leave the connection
completely unchanged in `pre_send_setopt`. -/
@[simp] theorem pre_conn_all_fail (p : Platform) (c : Connection) (ps pd : Bool) :
    (pre_send_setopt p c ps pd false false).conn = c := by
  unfold pre_send_setopt; dsimp only; repeat' split
  all_goals simp_all

/-- A failed cork call leaves the connection unchanged in `post_send_setopt`. -/
@[simp] theorem post_conn_fail (p : Platform) (c : Connection) (ps pd : Bool) :
    (post_send_setopt p c ps pd false).conn = c := by
  unfold post_send_setopt; dsimp only; repeat' split
  all_goals simp_all

/-- `pre_send_setopt` leaves `sk_corked` unchanged unless the cork call succeeded. -/
@[simp] theorem pre_conn_sk_corked_fail (p : Platform) (c : Connection) (ps pd o2 : Bool) :
    (pre_send_setopt p c ps pd false o2).conn.sk_corked = c.sk_corked := by
  unfold pre_send_setopt; dsimp only; repeat' split
  all_goals simp_all

/-- `pre_send_setopt` leaves `sk_nodelay` unchanged unless the no-delay call succeeded. -/
@[simp] theorem pre_conn_sk_nodelay_fail (p : Platform) (c : Connection) (ps pd o1 : Bool) :
    (pre_send_setopt p c ps pd o1 false).conn.sk_nodelay = c.sk_nodelay := by
  unfold pre_send_setopt; dsimp only; repeat' split
  all_goals simp_all

/-- C7: for every call to `MHD_send_on_connection_` with the header-conditional-cork
option `MHD_SSO_HDR_CORK`, push-now is selected if and only if the supplied byte count
exceeds 1024; a 2000-byte header selects push-now (buffering disabled — no-delay set —
before the call) and a byte count of exactly 1024 selects buffering. -/
theorem hdr_cork_threshold_policy :
    (∀ n : Nat, resolve_push_data .MHD_SSO_HDR_CORK n = decide (n > 1024))
    ∧ resolve_push_data .MHD_SSO_HDR_CORK 2000 = true
    ∧ resolve_push_data .MHD_SSO_HDR_CORK 1024 = false
    ∧ (MHD_send_on_connection_ plainPlat baseConn 2000 .MHD_SSO_HDR_CORK
        (.error .eOther) (.ok 2000) true true true).2.sk_nodelay = true
    ∧ (MHD_send_on_connection_ plainPlat { baseConn with sk_nodelay := true } 1024
        .MHD_SSO_HDR_CORK (.error .eOther) (.ok 1024) true true true).2.sk_nodelay
        = false := by
  exact ⟨fun n => rfl, by decide, by decide, by decide, by decide⟩

/-- C5: whenever the computed absolute file offset
(`response_write_position + fd_off`) exceeds the platform's maximum representable
file offset, `MHD_send_sendfile_` transfers zero bytes (it returns a negative
sentinel, not a byte count), sets the connection's transmission strategy to the
buffer-copy path, and returns the retry sentinel `MHD_ERR_AGAIN_` rather than any
of the fatal sentinels — on every platform variant. -/
theorem sendfile_offset_overflow_downgrades (plat : Platform)
    (variant : SendfileVariant) (M : Nat) (c : Connection) (sf : SfRes)
    (o1 o2 o3 : Bool) (hoff : M < sendfile_offsetu64 c) :
    (MHD_send_sendfile_ plat variant M c sf o1 o2 o3).1 = MHD_ERR_AGAIN_
    ∧ (MHD_send_sendfile_ plat variant M c sf o1 o2 o3).2.resp_sender_sendfile = false
    ∧ (MHD_send_sendfile_ plat variant M c sf o1 o2 o3).1 < 0
    ∧ (MHD_send_sendfile_ plat variant M c sf o1 o2 o3).1 ≠ MHD_ERR_CONNRESET_
    ∧ (MHD_send_sendfile_ plat variant M c sf o1 o2 o3).1 ≠ MHD_ERR_NOTCONN_
    ∧ (MHD_send_sendfile_ plat variant M c sf o1 o2 o3).1 ≠ MHD_ERR_BADF_ := by
  have h1 : sendfile_offsetu64 ((pre_send_setopt plat c false true o1 o2).conn)
      = sendfile_offsetu64 c := by
    simp [sendfile_offsetu64]
  unfold MHD_send_sendfile_
  dsimp only
  rw [h1, if_pos hoff]
  exact ⟨rfl, rfl, (by decide : MHD_ERR_AGAIN_ < 0),
    (by decide : MHD_ERR_AGAIN_ ≠ MHD_ERR_CONNRESET_),
    (by decide : MHD_ERR_AGAIN_ ≠ MHD_ERR_NOTCONN_),
    (by decide : MHD_ERR_AGAIN_ ≠ MHD_ERR_BADF_)⟩

/-- C5 witness: a concrete connection whose absolute offset exceeds a concrete
maximum offset is downgraded to the buffer-copy path with the retry sentinel. -/
theorem sendfile_offset_overflow_downgrades_witness :
    (3 < sendfile_offsetu64 { baseConn with response_write_position := 5 })
    ∧ (MHD_send_sendfile_ plainPlat .linux 3
        { baseConn with response_write_position := 5 } ⟨false, .EOTHER, 0⟩
        true true true).1 = MHD_ERR_AGAIN_
    ∧ (MHD_send_sendfile_ plainPlat .linux 3
        { baseConn with response_write_position := 5 } ⟨false, .EOTHER, 0⟩
        true true true).2.resp_sender_sendfile = false :=
  ⟨by decide,
   (sendfile_offset_overflow_downgrades plainPlat .linux 3
     { baseConn with response_write_position := 5 } ⟨false, .EOTHER, 0⟩
     true true true (by decide)).1,
   (sendfile_offset_overflow_downgrades plainPlat .linux 3
     { baseConn with response_write_position := 5 } ⟨false, .EOTHER, 0⟩
     true true true (by decide)).2.1⟩

/-! ### Frame lemmas for the three transmission entry points -/

@[simp] theorem conn_send_socket_valid (plat : Platform) (c : Connection) (bs : Nat)
    (opt : MHD_SendSocketOptions) (t : Except TlsErr Nat) (s : Except SockErr Nat)
    (o1 o2 o3 : Bool) :
    (MHD_send_on_connection_ plat c bs opt t s o1 o2 o3).2.socket_valid = c.socket_valid := by
  unfold MHD_send_on_connection_
  dsimp only
  repeat' split
  all_goals simp

@[simp] theorem conn_send_state_closed (plat : Platform) (c : Connection) (bs : Nat)
    (opt : MHD_SendSocketOptions) (t : Except TlsErr Nat) (s : Except SockErr Nat)
    (o1 o2 o3 : Bool) :
    (MHD_send_on_connection_ plat c bs opt t s o1 o2 o3).2.state_closed = c.state_closed := by
  unfold MHD_send_on_connection_
  dsimp only
  repeat' split
  all_goals simp

@[simp] theorem conn_send_response_write_position (plat : Platform) (c : Connection) (bs : Nat)
    (opt : MHD_SendSocketOptions) (t : Except TlsErr Nat) (s : Except SockErr Nat)
    (o1 o2 o3 : Bool) :
    (MHD_send_on_connection_ plat c bs opt t s o1 o2 o3).2.response_write_position = c.response_write_position := by
  unfold MHD_send_on_connection_
  dsimp only
  repeat' split
  all_goals simp

@[simp] theorem conn_send_response (plat : Platform) (c : Connection) (bs : Nat)
    (opt : MHD_SendSocketOptions) (t : Except TlsErr Nat) (s : Except SockErr Nat)
    (o1 o2 o3 : Bool) :
    (MHD_send_on_connection_ plat c bs opt t s o1 o2 o3).2.response = c.response := by
  unfold MHD_send_on_connection_
  dsimp only
  repeat' split
  all_goals simp

@[simp] theorem conn_send_opts_tls (plat : Platform) (c : Connection) (bs : Nat)
    (opt : MHD_SendSocketOptions) (t : Except TlsErr Nat) (s : Except SockErr Nat)
    (o1 o2 o3 : Bool) :
    (MHD_send_on_connection_ plat c bs opt t s o1 o2 o3).2.opts_tls = c.opts_tls := by
  unfold MHD_send_on_connection_
  dsimp only
  repeat' split
  all_goals simp

@[simp] theorem conn_send_opts_thread_per_conn (plat : Platform) (c : Connection) (bs : Nat)
    (opt : MHD_SendSocketOptions) (t : Except TlsErr Nat) (s : Except SockErr Nat)
    (o1 o2 o3 : Bool) :
    (MHD_send_on_connection_ plat c bs opt t s o1 o2 o3).2.opts_thread_per_conn = c.opts_thread_per_conn := by
  unfold MHD_send_on_connection_
  dsimp only
  repeat' split
  all_goals simp

@[simp] theorem conn_send_resp_sender_sendfile (plat : Platform) (c : Connection) (bs : Nat)
    (opt : MHD_SendSocketOptions) (t : Except TlsErr Nat) (s : Except SockErr Nat)
    (o1 o2 o3 : Bool) :
    (MHD_send_on_connection_ plat c bs opt t s o1 o2 o3).2.resp_sender_sendfile = c.resp_sender_sendfile := by
  unfold MHD_send_on_connection_
  dsimp only
  repeat' split
  all_goals simp

@[simp] theorem conn2_send_socket_valid (plat : Platform) (hv : Bool) (c : Connection)
    (hs bs : Nat) (v : Except SockErr Nat) (t : Except TlsErr Nat)
    (s : Except SockErr Nat) (o1 o2 o3 : Bool) :
    (MHD_send_on_connection2_ plat hv c hs bs v t s o1 o2 o3).2.socket_valid = c.socket_valid := by
  unfold MHD_send_on_connection2_
  dsimp only
  repeat' split
  all_goals simp

@[simp] theorem conn2_send_state_closed (plat : Platform) (hv : Bool) (c : Connection)
    (hs bs : Nat) (v : Except SockErr Nat) (t : Except TlsErr Nat)
    (s : Except SockErr Nat) (o1 o2 o3 : Bool) :
    (MHD_send_on_connection2_ plat hv c hs bs v t s o1 o2 o3).2.state_closed = c.state_closed := by
  unfold MHD_send_on_connection2_
  dsimp only
  repeat' split
  all_goals simp

@[simp] theorem conn2_send_response_write_position (plat : Platform) (hv : Bool) (c : Connection)
    (hs bs : Nat) (v : Except SockErr Nat) (t : Except TlsErr Nat)
    (s : Except SockErr Nat) (o1 o2 o3 : Bool) :
    (MHD_send_on_connection2_ plat hv c hs bs v t s o1 o2 o3).2.response_write_position = c.response_write_position := by
  unfold MHD_send_on_connection2_
  dsimp only
  repeat' split
  all_goals simp

@[simp] theorem conn2_send_response (plat : Platform) (hv : Bool) (c : Connection)
    (hs bs : Nat) (v : Except SockErr Nat) (t : Except TlsErr Nat)
    (s : Except SockErr Nat) (o1 o2 o3 : Bool) :
    (MHD_send_on_connection2_ plat hv c hs bs v t s o1 o2 o3).2.response = c.response := by
  unfold MHD_send_on_connection2_
  dsimp only
  repeat' split
  all_goals simp

@[simp] theorem conn2_send_opts_tls (plat : Platform) (hv : Bool) (c : Connection)
    (hs bs : Nat) (v : Except SockErr Nat) (t : Except TlsErr Nat)
    (s : Except SockErr Nat) (o1 o2 o3 : Bool) :
    (MHD_send_on_connection2_ plat hv c hs bs v t s o1 o2 o3).2.opts_tls = c.opts_tls := by
  unfold MHD_send_on_connection2_
  dsimp only
  repeat' split
  all_goals simp

@[simp] theorem conn2_send_opts_thread_per_conn (plat : Platform) (hv : Bool) (c : Connection)
    (hs bs : Nat) (v : Except SockErr Nat) (t : Except TlsErr Nat)
    (s : Except SockErr Nat) (o1 o2 o3 : Bool) :
    (MHD_send_on_connection2_ plat hv c hs bs v t s o1 o2 o3).2.opts_thread_per_conn = c.opts_thread_per_conn := by
  unfold MHD_send_on_connection2_
  dsimp only
  repeat' split
  all_goals simp

@[simp] theorem conn2_send_resp_sender_sendfile (plat : Platform) (hv : Bool) (c : Connection)
    (hs bs : Nat) (v : Except SockErr Nat) (t : Except TlsErr Nat)
    (s : Except SockErr Nat) (o1 o2 o3 : Bool) :
    (MHD_send_on_connection2_ plat hv c hs bs v t s o1 o2 o3).2.resp_sender_sendfile = c.resp_sender_sendfile := by
  unfold MHD_send_on_connection2_
  dsimp only
  repeat' split
  all_goals simp

@[simp] theorem sf_send_socket_valid (plat : Platform) (variant : SendfileVariant) (M : Nat)
    (c : Connection) (sf : SfRes) (o1 o2 o3 : Bool) :
    (MHD_send_sendfile_ plat variant M c sf o1 o2 o3).2.socket_valid = c.socket_valid := by
  unfold MHD_send_sendfile_
  dsimp only
  repeat' split
  all_goals simp

@[simp] theorem sf_send_state_closed (plat : Platform) (variant : SendfileVariant) (M : Nat)
    (c : Connection) (sf : SfRes) (o1 o2 o3 : Bool) :
    (MHD_send_sendfile_ plat variant M c sf o1 o2 o3).2.state_closed = c.state_closed := by
  unfold MHD_send_sendfile_
  dsimp only
  repeat' split
  all_goals simp

@[simp] theorem sf_send_response_write_position (plat : Platform) (variant : SendfileVariant) (M : Nat)
    (c : Connection) (sf : SfRes) (o1 o2 o3 : Bool) :
    (MHD_send_sendfile_ plat variant M c sf o1 o2 o3).2.response_write_position = c.response_write_position := by
  unfold MHD_send_sendfile_
  dsimp only
  repeat' split
  all_goals simp

@[simp] theorem sf_send_response (plat : Platform) (variant : SendfileVariant) (M : Nat)
    (c : Connection) (sf : SfRes) (o1 o2 o3 : Bool) :
    (MHD_send_sendfile_ plat variant M c sf o1 o2 o3).2.response = c.response := by
  unfold MHD_send_sendfile_
  dsimp only
  repeat' split
  all_goals simp

@[simp] theorem sf_send_opts_tls (plat : Platform) (variant : SendfileVariant) (M : Nat)
    (c : Connection) (sf : SfRes) (o1 o2 o3 : Bool) :
    (MHD_send_sendfile_ plat variant M c sf o1 o2 o3).2.opts_tls = c.opts_tls := by
  unfold MHD_send_sendfile_
  dsimp only
  repeat' split
  all_goals simp

@[simp] theorem sf_send_opts_thread_per_conn (plat : Platform) (variant : SendfileVariant) (M : Nat)
    (c : Connection) (sf : SfRes) (o1 o2 o3 : Bool) :
    (MHD_send_sendfile_ plat variant M c sf o1 o2 o3).2.opts_thread_per_conn = c.opts_thread_per_conn := by
  unfold MHD_send_sendfile_
  dsimp only
  repeat' split
  all_goals simp

theorem sf_send_resp_sender_le (plat : Platform) (variant : SendfileVariant) (M : Nat)
    (c : Connection) (sf : SfRes) (o1 o2 o3 : Bool) :
    (MHD_send_sendfile_ plat variant M c sf o1 o2 o3).2.resp_sender_sendfile
      ≤ c.resp_sender_sendfile := by
  unfold MHD_send_sendfile_
  dsimp only
  repeat' split
  all_goals simp

/-- `pre_send_setopt` does not move the computed file offset. -/
@[simp] theorem sendfile_offsetu64_pre (p : Platform) (c : Connection) (ps pd o1 o2 : Bool) :
    sendfile_offsetu64 ((pre_send_setopt p c ps pd o1 o2).conn) = sendfile_offsetu64 c := by
  simp [sendfile_offsetu64]

/-- `pre_send_setopt` does not move the remaining byte count. -/
@[simp] theorem sendfile_left_pre (p : Platform) (c : Connection) (ps pd o1 o2 : Bool) :
    sendfile_left ((pre_send_setopt p c ps pd o1 o2).conn) = sendfile_left c := by
  simp [sendfile_left]

/-- `pre_send_setopt` does not change the selected chunk size. -/
@[simp] theorem sendfile_chunk_size_pre (p : Platform) (c : Connection) (ps pd o1 o2 : Bool) :
    sendfile_chunk_size ((pre_send_setopt p c ps pd o1 o2).conn) = sendfile_chunk_size c := by
  simp [sendfile_chunk_size]

/-- `pre_send_setopt` does not change the requested send size. -/
@[simp] theorem sendfile_send_size_pre (p : Platform) (c : Connection) (ps pd o1 o2 : Bool) :
    sendfile_send_size ((pre_send_setopt p c ps pd o1 o2).conn) = sendfile_send_size c := by
  simp [sendfile_send_size]

/-- The transfer result code of `MHD_send_on_connection_` does not depend on
whether the buffering-mode primitives succeed. -/
theorem conn_send_fst_oks (plat : Platform) (c : Connection) (bs : Nat)
    (opt : MHD_SendSocketOptions) (t : Except TlsErr Nat) (s : Except SockErr Nat)
    (o1 o2 o3 o1' o2' o3' : Bool) :
    (MHD_send_on_connection_ plat c bs opt t s o1 o2 o3).1
      = (MHD_send_on_connection_ plat c bs opt t s o1' o2' o3').1 := by
  unfold MHD_send_on_connection_
  dsimp only
  repeat' split
  all_goals simp_all

/-- The transfer result code of `MHD_send_on_connection2_` does not depend on
whether the buffering-mode primitives succeed. -/
theorem conn2_send_fst_oks (plat : Platform) (hv : Bool) (c : Connection)
    (hs bs : Nat) (v : Except SockErr Nat) (t : Except TlsErr Nat)
    (s : Except SockErr Nat) (o1 o2 o3 o1' o2' o3' : Bool) :
    (MHD_send_on_connection2_ plat hv c hs bs v t s o1 o2 o3).1
      = (MHD_send_on_connection2_ plat hv c hs bs v t s o1' o2' o3').1 := by
  unfold MHD_send_on_connection2_
  dsimp only
  repeat' split
  all_goals first
  | rfl
  | apply conn_send_fst_oks

/-- The transfer result code of `MHD_send_sendfile_` does not depend on
whether the buffering-mode primitives succeed. -/
theorem sf_send_fst_oks (plat : Platform) (variant : SendfileVariant) (M : Nat)
    (c : Connection) (sf : SfRes) (o1 o2 o3 o1' o2' o3' : Bool) :
    (MHD_send_sendfile_ plat variant M c sf o1 o2 o3).1
      = (MHD_send_sendfile_ plat variant M c sf o1' o2' o3').1 := by
  unfold MHD_send_sendfile_
  dsimp only
  simp only [sendfile_offsetu64_pre, sendfile_left_pre, sendfile_send_size_pre]
  repeat' split
  all_goals simp_all

/-- C2: for every call to `pre_send_setopt` or `post_send_setopt`, if the cached
buffering-mode flag (`sk_corked`, resp. `sk_nodelay`) already equals the desired
state, the underlying mode-setting primitive is not invoked; the cached flag is
changed only when the underlying mode-set call reports success (a failed mode-set
leaves the connection unchanged); and the success or failure of the mode-set
calls never affects the result code of the surrounding transfer. -/
theorem setopt_cache_discipline :
    (∀ (p : Platform) (c : Connection) (ps pd o1 o2 : Bool),
      ((pre_send_setopt p c ps pd o1 o2).corkCalled && (c.sk_corked == (! pd))) = false)
    ∧ (∀ (p : Platform) (c : Connection) (ps pd o1 o2 : Bool),
      ((pre_send_setopt p c ps pd o1 o2).nodelayCalled && (c.sk_nodelay == pd)) = false)
    ∧ (∀ (p : Platform) (c : Connection) (ps pd o1 : Bool),
      ((post_send_setopt p c ps pd o1).corkCalled && (c.sk_corked == (! pd))) = false)
    ∧ (∀ (p : Platform) (c : Connection) (ps pd : Bool),
      (pre_send_setopt p c ps pd false false).conn = c)
    ∧ (∀ (p : Platform) (c : Connection) (ps pd o2 : Bool),
      (pre_send_setopt p c ps pd false o2).conn.sk_corked = c.sk_corked)
    ∧ (∀ (p : Platform) (c : Connection) (ps pd o1 : Bool),
      (pre_send_setopt p c ps pd o1 false).conn.sk_nodelay = c.sk_nodelay)
    ∧ (∀ (p : Platform) (c : Connection) (ps pd : Bool),
      (post_send_setopt p c ps pd false).conn = c)
    ∧ (∀ (plat : Platform) (c : Connection) (bs : Nat) (opt : MHD_SendSocketOptions)
        (t : Except TlsErr Nat) (s : Except SockErr Nat) (o1 o2 o3 o1' o2' o3' : Bool),
      (MHD_send_on_connection_ plat c bs opt t s o1 o2 o3).1
        = (MHD_send_on_connection_ plat c bs opt t s o1' o2' o3').1)
    ∧ (∀ (plat : Platform) (hv : Bool) (c : Connection) (hs bs : Nat)
        (v : Except SockErr Nat) (t : Except TlsErr Nat) (s : Except SockErr Nat)
        (o1 o2 o3 o1' o2' o3' : Bool),
      (MHD_send_on_connection2_ plat hv c hs bs v t s o1 o2 o3).1
        = (MHD_send_on_connection2_ plat hv c hs bs v t s o1' o2' o3').1)
    ∧ (∀ (plat : Platform) (variant : SendfileVariant) (M : Nat) (c : Connection)
        (sf : SfRes) (o1 o2 o3 o1' o2' o3' : Bool),
      (MHD_send_sendfile_ plat variant M c sf o1 o2 o3).1
        = (MHD_send_sendfile_ plat variant M c sf o1' o2' o3').1) := by
  refine ⟨?_, ?_, ?_, fun p c ps pd => pre_conn_all_fail p c ps pd,
    fun p c ps pd o2 => pre_conn_sk_corked_fail p c ps pd o2,
    fun p c ps pd o1 => pre_conn_sk_nodelay_fail p c ps pd o1,
    fun p c ps pd => post_conn_fail p c ps pd,
    fun plat c bs opt t s o1 o2 o3 o1' o2' o3' =>
      conn_send_fst_oks plat c bs opt t s o1 o2 o3 o1' o2' o3',
    fun plat hv c hs bs v t s o1 o2 o3 o1' o2' o3' =>
      conn2_send_fst_oks plat hv c hs bs v t s o1 o2 o3 o1' o2' o3',
    fun plat variant M c sf o1 o2 o3 o1' o2' o3' =>
      sf_send_fst_oks plat variant M c sf o1 o2 o3 o1' o2' o3'⟩
  · intro p c ps pd o1 o2
    unfold pre_send_setopt
    dsimp only
    repeat' split
    all_goals simp_all
  · intro p c ps pd o1 o2
    unfold pre_send_setopt
    dsimp only
    repeat' split
    all_goals simp_all
  · intro p c ps pd o1
    unfold post_send_setopt
    dsimp only
    repeat' split
    all_goals simp_all

/-- C6: downgrade permanence — the layer only ever writes the buffer-copy value
into the connection's transmission-strategy tag: `MHD_send_sendfile_` either
leaves `resp_sender` unchanged or downgrades it to `MHD_resp_sender_std` (never
the reverse), and `MHD_send_on_connection_` / `MHD_send_on_connection2_` never
change it, so once a downgrade happens no later call of this layer restores
zero-copy transmission. -/
theorem resp_sender_downgrade_permanence :
    (∀ (plat : Platform) (variant : SendfileVariant) (M : Nat) (c : Connection)
        (sf : SfRes) (o1 o2 o3 : Bool),
      (MHD_send_sendfile_ plat variant M c sf o1 o2 o3).2.resp_sender_sendfile
        ≤ c.resp_sender_sendfile)
    ∧ (∀ (plat : Platform) (c : Connection) (bs : Nat) (opt : MHD_SendSocketOptions)
        (t : Except TlsErr Nat) (s : Except SockErr Nat) (o1 o2 o3 : Bool),
      (MHD_send_on_connection_ plat c bs opt t s o1 o2 o3).2.resp_sender_sendfile
        = c.resp_sender_sendfile)
    ∧ (∀ (plat : Platform) (hv : Bool) (c : Connection) (hs bs : Nat)
        (v : Except SockErr Nat) (t : Except TlsErr Nat) (s : Except SockErr Nat)
        (o1 o2 o3 : Bool),
      (MHD_send_on_connection2_ plat hv c hs bs v t s o1 o2 o3).2.resp_sender_sendfile
        = c.resp_sender_sendfile) :=
  ⟨fun plat variant M c sf o1 o2 o3 => sf_send_resp_sender_le plat variant M c sf o1 o2 o3,
   fun plat c bs opt t s o1 o2 o3 => conn_send_resp_sender_sendfile plat c bs opt t s o1 o2 o3,
   fun plat hv c hs bs v t s o1 o2 o3 =>
     conn2_send_resp_sender_sendfile plat hv c hs bs v t s o1 o2 o3⟩

/-- C10: frame property — none of the three transmission calls modifies the
connection's `response_write_position` or the response record (in particular its
`total_size`); they also leave the socket handle validity, closed-state flag and
daemon options untouched.  The only connection fields they may write are the
buffering-mode cache, the epoll write-ready flag and the transmission-strategy tag. -/
theorem transmission_frame_property :
    (∀ (plat : Platform) (c : Connection) (bs : Nat) (opt : MHD_SendSocketOptions)
        (t : Except TlsErr Nat) (s : Except SockErr Nat) (o1 o2 o3 : Bool),
      (MHD_send_on_connection_ plat c bs opt t s o1 o2 o3).2.response_write_position
        = c.response_write_position
      ∧ (MHD_send_on_connection_ plat c bs opt t s o1 o2 o3).2.response = c.response
      ∧ (MHD_send_on_connection_ plat c bs opt t s o1 o2 o3).2.socket_valid = c.socket_valid
      ∧ (MHD_send_on_connection_ plat c bs opt t s o1 o2 o3).2.state_closed = c.state_closed
      ∧ (MHD_send_on_connection_ plat c bs opt t s o1 o2 o3).2.opts_tls = c.opts_tls
      ∧ (MHD_send_on_connection_ plat c bs opt t s o1 o2 o3).2.opts_thread_per_conn
          = c.opts_thread_per_conn
      ∧ (MHD_send_on_connection_ plat c bs opt t s o1 o2 o3).2.resp_sender_sendfile
          = c.resp_sender_sendfile)
    ∧ (∀ (plat : Platform) (hv : Bool) (c : Connection) (hs bs : Nat)
        (v : Except SockErr Nat) (t : Except TlsErr Nat) (s : Except SockErr Nat)
        (o1 o2 o3 : Bool),
      (MHD_send_on_connection2_ plat hv c hs bs v t s o1 o2 o3).2.response_write_position
        = c.response_write_position
      ∧ (MHD_send_on_connection2_ plat hv c hs bs v t s o1 o2 o3).2.response = c.response
      ∧ (MHD_send_on_connection2_ plat hv c hs bs v t s o1 o2 o3).2.socket_valid
          = c.socket_valid
      ∧ (MHD_send_on_connection2_ plat hv c hs bs v t s o1 o2 o3).2.state_closed
          = c.state_closed
      ∧ (MHD_send_on_connection2_ plat hv c hs bs v t s o1 o2 o3).2.opts_tls = c.opts_tls
      ∧ (MHD_send_on_connection2_ plat hv c hs bs v t s o1 o2 o3).2.opts_thread_per_conn
          = c.opts_thread_per_conn
      ∧ (MHD_send_on_connection2_ plat hv c hs bs v t s o1 o2 o3).2.resp_sender_sendfile
          = c.resp_sender_sendfile)
    ∧ (∀ (plat : Platform) (variant : SendfileVariant) (M : Nat) (c : Connection)
        (sf : SfRes) (o1 o2 o3 : Bool),
      (MHD_send_sendfile_ plat variant M c sf o1 o2 o3).2.response_write_position
        = c.response_write_position
      ∧ (MHD_send_sendfile_ plat variant M c sf o1 o2 o3).2.response = c.response
      ∧ (MHD_send_sendfile_ plat variant M c sf o1 o2 o3).2.socket_valid = c.socket_valid
      ∧ (MHD_send_sendfile_ plat variant M c sf o1 o2 o3).2.state_closed = c.state_closed
      ∧ (MHD_send_sendfile_ plat variant M c sf o1 o2 o3).2.opts_tls = c.opts_tls
      ∧ (MHD_send_sendfile_ plat variant M c sf o1 o2 o3).2.opts_thread_per_conn
          = c.opts_thread_per_conn) :=
  ⟨fun plat c bs opt t s o1 o2 o3 =>
    ⟨conn_send_response_write_position plat c bs opt t s o1 o2 o3,
     conn_send_response plat c bs opt t s o1 o2 o3,
     conn_send_socket_valid plat c bs opt t s o1 o2 o3,
     conn_send_state_closed plat c bs opt t s o1 o2 o3,
     conn_send_opts_tls plat c bs opt t s o1 o2 o3,
     conn_send_opts_thread_per_conn plat c bs opt t s o1 o2 o3,
     conn_send_resp_sender_sendfile plat c bs opt t s o1 o2 o3⟩,
   fun plat hv c hs bs v t s o1 o2 o3 =>
    ⟨conn2_send_response_write_position plat hv c hs bs v t s o1 o2 o3,
     conn2_send_response plat hv c hs bs v t s o1 o2 o3,
     conn2_send_socket_valid plat hv c hs bs v t s o1 o2 o3,
     conn2_send_state_closed plat hv c hs bs v t s o1 o2 o3,
     conn2_send_opts_tls plat hv c hs bs v t s o1 o2 o3,
     conn2_send_opts_thread_per_conn plat hv c hs bs v t s o1 o2 o3,
     conn2_send_resp_sender_sendfile plat hv c hs bs v t s o1 o2 o3⟩,
   fun plat variant M c sf o1 o2 o3 =>
    ⟨sf_send_response_write_position plat variant M c sf o1 o2 o3,
     sf_send_response plat variant M c sf o1 o2 o3,
     sf_send_socket_valid plat variant M c sf o1 o2 o3,
     sf_send_state_closed plat variant M c sf o1 o2 o3,
     sf_send_opts_tls plat variant M c sf o1 o2 o3,
     sf_send_opts_thread_per_conn plat variant M c sf o1 o2 o3⟩⟩

/-- C1 counterexample: an interrupted plaintext send (`EINTR`) and a
not-currently-writable socket (`EAGAIN`) yield the *same* result code — both
return the single retry sentinel `MHD_ERR_AGAIN_` — so they are not two
distinct outcomes of `MHD_send_on_connection_` as the claim states. -/
theorem eintr_eagain_same_outcome :
    (MHD_send_on_connection_ plainPlat baseConn 5 .MHD_SSO_PUSH_DATA (.error .eOther)
      (.error .EINTR) true true true).1 = MHD_ERR_AGAIN_
    ∧ (MHD_send_on_connection_ plainPlat baseConn 5 .MHD_SSO_PUSH_DATA (.error .eOther)
      (.error .EAGAIN) true true true).1 = MHD_ERR_AGAIN_
    ∧ (MHD_send_on_connection_ plainPlat baseConn 5 .MHD_SSO_PUSH_DATA (.error .eOther)
      (.error .EINTR) true true true).1
      = (MHD_send_on_connection_ plainPlat baseConn 5 .MHD_SSO_PUSH_DATA (.error .eOther)
      (.error .EAGAIN) true true true).1 := by
  exact ⟨by decide, by decide, by decide⟩

/-- C1 (amended): for every failing plaintext send in `MHD_send_on_connection_`,
an interrupted call (`EINTR`) and a not-currently-writable socket (`EAGAIN`)
both return the single retry sentinel `MHD_ERR_AGAIN_`; the two cases are
distinguished only through the epoll write-ready flag, which is cleared for
`EAGAIN` (when epoll support is compiled in) and left unchanged for `EINTR`;
a peer connection reset returns `MHD_ERR_CONNRESET_`; any other error returns
`MHD_ERR_NOTCONN_`; and the interruption-class errors are never mapped to a
fatal sentinel. -/
theorem plain_send_error_classification (plat : Platform) (c : Connection)
    (bs : Nat) (opt : MHD_SendSocketOptions) (t : Except TlsErr Nat) (e : SockErr)
    (o1 o2 o3 : Bool)
    (hs : c.socket_valid = true) (hc : c.state_closed = false)
    (htls : (plat.httpsSupport && c.opts_tls) = false) :
    ((e = .EAGAIN ∨ e = .EINTR) →
      (MHD_send_on_connection_ plat c bs opt t (.error e) o1 o2 o3).1 = MHD_ERR_AGAIN_)
    ∧ (e = .EAGAIN → plat.epollSupport = true →
      (MHD_send_on_connection_ plat c bs opt t (.error e) o1 o2 o3).2.epoll_write_ready
        = false)
    ∧ (e = .EINTR →
      (MHD_send_on_connection_ plat c bs opt t (.error e) o1 o2 o3).2.epoll_write_ready
        = c.epoll_write_ready)
    ∧ (e = .ECONNRESET →
      (MHD_send_on_connection_ plat c bs opt t (.error e) o1 o2 o3).1
        = MHD_ERR_CONNRESET_)
    ∧ (e ≠ .EAGAIN → e ≠ .EINTR → e ≠ .ECONNRESET →
      (MHD_send_on_connection_ plat c bs opt t (.error e) o1 o2 o3).1 = MHD_ERR_NOTCONN_)
    ∧ ((e = .EAGAIN ∨ e = .EINTR) →
      (MHD_send_on_connection_ plat c bs opt t (.error e) o1 o2 o3).1 ≠ MHD_ERR_CONNRESET_
      ∧ (MHD_send_on_connection_ plat c bs opt t (.error e) o1 o2 o3).1 ≠ MHD_ERR_NOTCONN_
      ∧ (MHD_send_on_connection_ plat c bs opt t (.error e) o1 o2 o3).1
          ≠ MHD_ERR_BADF_) := by
  refine ⟨?_, ?_, ?_, ?_, ?_, ?_⟩
  · rintro (rfl | rfl) <;>
      (unfold MHD_send_on_connection_; dsimp only; simp [hs, hc, htls])
  · rintro rfl hep
    unfold MHD_send_on_connection_
    dsimp only
    simp [hs, hc, htls, hep]
  · rintro rfl
    unfold MHD_send_on_connection_
    dsimp only
    simp [hs, hc, htls]
  · rintro rfl
    unfold MHD_send_on_connection_
    dsimp only
    simp [hs, hc, htls]
  · intro h1 h2 h3
    unfold MHD_send_on_connection_
    dsimp only
    simp [hs, hc, htls, beq_iff_eq, h1, h2, h3]
  · rintro (rfl | rfl) <;>
      (unfold MHD_send_on_connection_; dsimp only;
       simp [hs, hc, htls, MHD_ERR_AGAIN_, MHD_ERR_CONNRESET_, MHD_ERR_NOTCONN_,
         MHD_ERR_BADF_])

/-- C1 witness: the amended classification evaluated on a concrete healthy
plaintext connection for a connection-reset failure. -/
theorem plain_send_error_classification_witness :
    baseConn.socket_valid = true ∧ baseConn.state_closed = false
    ∧ (plainPlat.httpsSupport && baseConn.opts_tls) = false
    ∧ (MHD_send_on_connection_ plainPlat baseConn 5 .MHD_SSO_PUSH_DATA (.error .eOther)
        (.error .ECONNRESET) true true true).1 = MHD_ERR_CONNRESET_ :=
  ⟨by decide, by decide, by decide,
   (plain_send_error_classification plainPlat baseConn 5 .MHD_SSO_PUSH_DATA
     (.error .eOther) .ECONNRESET true true true (by decide) (by decide)
     (by decide)).2.2.2.1 rfl⟩

/-- C3 counterexample: on the Linux variant of `MHD_send_sendfile_`, a broken-pipe
(`EPIPE`) failure of the zero-copy primitive does *not* return the connection-reset
sentinel — it falls into the catch-all fallback, which downgrades the connection's
transmission strategy to the buffer-copy path and returns the retry sentinel. -/
theorem linux_epipe_downgrades :
    (MHD_send_sendfile_ plainPlat .linux (2 ^ 63 - 1) baseConn ⟨true, .EPIPE, 0⟩
      true true true).1 = MHD_ERR_AGAIN_
    ∧ (MHD_send_sendfile_ plainPlat .linux (2 ^ 63 - 1) baseConn ⟨true, .EPIPE, 0⟩
      true true true).1 ≠ MHD_ERR_CONNRESET_
    ∧ baseConn.resp_sender_sendfile = true
    ∧ (MHD_send_sendfile_ plainPlat .linux (2 ^ 63 - 1) baseConn ⟨true, .EPIPE, 0⟩
      true true true).2.resp_sender_sendfile = false := by
  exact ⟨by decide, by decide, by decide, by decide⟩

/-- C3 (amended): when the zero-copy primitive fails with a connection-reset or
broken-pipe error (`ENOTCONN`/`EPIPE`), `MHD_send_sendfile_` returns the
connection-reset sentinel and leaves the transmission strategy unchanged on the
Solaris and Darwin variants only; on the Linux and FreeBSD variants the same
errors fall into the catch-all fallback, which downgrades the connection to the
buffer-copy path and returns the retry sentinel. -/
theorem sendfile_reset_classification (plat : Platform) (variant : SendfileVariant)
    (M : Nat) (c : Connection) (sf : SfRes) (o1 o2 o3 : Bool)
    (hoff : ¬ M < sendfile_offsetu64 c)
    (hfail : sf.fail = true) (herr : sf.err = .ENOTCONN ∨ sf.err = .EPIPE) :
    ((variant = .solaris ∨ variant = .darwin) →
      (MHD_send_sendfile_ plat variant M c sf o1 o2 o3).1 = MHD_ERR_CONNRESET_
      ∧ (MHD_send_sendfile_ plat variant M c sf o1 o2 o3).2.resp_sender_sendfile
          = c.resp_sender_sendfile)
    ∧ ((variant = .linux ∨ variant = .freebsd) →
      (MHD_send_sendfile_ plat variant M c sf o1 o2 o3).1 = MHD_ERR_AGAIN_
      ∧ (MHD_send_sendfile_ plat variant M c sf o1 o2 o3).2.resp_sender_sendfile
          = false) := by
  constructor
  · rintro (rfl | rfl) <;> rcases herr with h | h <;>
      (unfold MHD_send_sendfile_; dsimp only;
       simp only [sendfile_offsetu64_pre, sendfile_left_pre, sendfile_send_size_pre];
       rw [if_neg hoff]; simp [h, hfail])
  · rintro (rfl | rfl) <;> rcases herr with h | h <;>
      (unfold MHD_send_sendfile_; dsimp only;
       simp only [sendfile_offsetu64_pre, sendfile_left_pre, sendfile_send_size_pre];
       rw [if_neg hoff]; simp [h, hfail])

/-- C3 witness: the amended classification evaluated concretely — `ENOTCONN` on
the Solaris variant returns the reset sentinel, and on the Linux variant the
retry sentinel. -/
theorem sendfile_reset_classification_witness :
    (¬ (2 ^ 63 - 1 : Nat) < sendfile_offsetu64 baseConn)
    ∧ (MHD_send_sendfile_ plainPlat .solaris (2 ^ 63 - 1) baseConn ⟨true, .ENOTCONN, 0⟩
        true true true).1 = MHD_ERR_CONNRESET_
    ∧ (MHD_send_sendfile_ plainPlat .linux (2 ^ 63 - 1) baseConn ⟨true, .ENOTCONN, 0⟩
        true true true).1 = MHD_ERR_AGAIN_ :=
  ⟨by decide,
   ((sendfile_reset_classification plainPlat .solaris (2 ^ 63 - 1) baseConn
     ⟨true, .ENOTCONN, 0⟩ true true true (by decide) rfl (Or.inl rfl)).1
     (Or.inl rfl)).1,
   ((sendfile_reset_classification plainPlat .linux (2 ^ 63 - 1) baseConn
     ⟨true, .ENOTCONN, 0⟩ true true true (by decide) rfl (Or.inl rfl)).2
     (Or.inl rfl)).1⟩

/-- C4 counterexample: a `sendmsg`/`writev` failure other than `EAGAIN` (here
`EINTR`) on the scatter-gather path of `MHD_send_on_connection2_` is returned as
the raw native `-1`, which is none of the outcome-vocabulary sentinels, so the
native failure is not translated before returning. -/
theorem vec_send_raw_error_escapes :
    (MHD_send_on_connection2_ plainPlat true baseConn 4 6 (.error .EINTR)
      (.error .eOther) (.error .EOTHER) true true true).1 = -1
    ∧ (-1 : Int) ≠ MHD_ERR_AGAIN_ ∧ (-1 : Int) ≠ MHD_ERR_CONNRESET_
    ∧ (-1 : Int) ≠ MHD_ERR_NOTCONN_ ∧ (-1 : Int) ≠ MHD_ERR_BADF_ := by
  exact ⟨by decide, by decide, by decide, by decide, by decide⟩

/-- C4 (amended): on the scatter-gather (`sendmsg`/`writev`) path of
`MHD_send_on_connection2_`, only an `EAGAIN` failure is translated into the
outcome vocabulary (the retry sentinel); every other native failure is returned
to the caller as the raw native `-1`. -/
theorem vec_send_error_translation (plat : Platform) (c : Connection) (hs bs : Nat)
    (e : SockErr) (t : Except TlsErr Nat) (s : Except SockErr Nat) (o1 o2 o3 : Bool)
    (htls : (plat.httpsSupport && c.opts_tls) = false) :
    (e = .EAGAIN →
      (MHD_send_on_connection2_ plat true c hs bs (.error e) t s o1 o2 o3).1
        = MHD_ERR_AGAIN_)
    ∧ (e ≠ .EAGAIN →
      (MHD_send_on_connection2_ plat true c hs bs (.error e) t s o1 o2 o3).1 = -1) := by
  constructor
  · rintro rfl
    unfold MHD_send_on_connection2_
    dsimp only
    simp [htls]
  · intro hne
    unfold MHD_send_on_connection2_
    dsimp only
    simp [htls, beq_iff_eq, hne]

/-- C4 witness: the amended translation evaluated concretely — `EAGAIN` becomes
the retry sentinel, `EPIPE` escapes as the raw `-1`. -/
theorem vec_send_error_translation_witness :
    (plainPlat.httpsSupport && baseConn.opts_tls) = false
    ∧ (MHD_send_on_connection2_ plainPlat true baseConn 4 6 (.error .EAGAIN)
        (.error .eOther) (.error .EOTHER) true true true).1 = MHD_ERR_AGAIN_
    ∧ (MHD_send_on_connection2_ plainPlat true baseConn 4 6 (.error .EPIPE)
        (.error .eOther) (.error .EOTHER) true true true).1 = -1 :=
  ⟨by decide,
   (vec_send_error_translation plainPlat baseConn 4 6 .EAGAIN (.error .eOther)
     (.error .EOTHER) true true true (by decide)).1 rfl,
   (vec_send_error_translation plainPlat baseConn 4 6 .EPIPE (.error .eOther)
     (.error .EOTHER) true true true (by decide)).2 (by decide)⟩

/-- C `uint64_t` subtraction agrees with exact subtraction when the operands are
in range and ordered. -/
theorem sub64_eq_of_le (a b : Nat) (hba : b ≤ a) (ha : a < UINT64_MOD) :
    sub64 a b = a - b := by
  unfold sub64 UINT64_MOD at *
  omega

/-- C8: `MHD_send_sendfile_` uses a 2 MiB (`0x200000`) chunk under
thread-per-connection and a 128 KiB (`0x20000`) chunk otherwise, and the length
requested from the zero-copy primitive equals the minimum of the remaining
unsent bytes, the chunk size, and the platform's maximum representable file
offset (the last bound being inactive because both chunk sizes are below it). -/
theorem sendfile_chunk_and_clamp :
    (∀ c : Connection,
      sendfile_chunk_size c = if c.opts_thread_per_conn then 0x200000 else 0x20000)
    ∧ (∀ (c : Connection) (M : Nat),
        c.response_write_position ≤ c.response.total_size →
        c.response.total_size < UINT64_MOD →
        MHD_SENFILE_CHUNK_THR_P_C_ ≤ M →
        sendfile_send_size c
          = min (c.response.total_size - c.response_write_position)
              (min (sendfile_chunk_size c) M)) := by
  constructor
  · intro c; rfl
  · intro c M h1 h2 h3
    have hl : sendfile_left c = c.response.total_size - c.response_write_position := by
      unfold sendfile_left
      exact sub64_eq_of_le _ _ h1 h2
    have hch : sendfile_chunk_size c ≤ M := by
      unfold sendfile_chunk_size at *
      unfold MHD_SENFILE_CHUNK_ MHD_SENFILE_CHUNK_THR_P_C_ at *
      split <;> omega
    unfold sendfile_send_size
    rw [hl]
    rw [Nat.min_def, Nat.min_def]
    split_ifs <;> omega

/-- C8 witness: the clamp evaluated on a concrete connection and maximum offset. -/
theorem sendfile_chunk_and_clamp_witness :
    (baseConn.response_write_position ≤ baseConn.response.total_size)
    ∧ (baseConn.response.total_size < UINT64_MOD)
    ∧ (MHD_SENFILE_CHUNK_THR_P_C_ ≤ 2 ^ 63 - 1)
    ∧ sendfile_send_size baseConn
        = min (baseConn.response.total_size - baseConn.response_write_position)
            (min (sendfile_chunk_size baseConn) (2 ^ 63 - 1)) :=
  ⟨by decide, by decide, by decide,
   sendfile_chunk_and_clamp.2 baseConn (2 ^ 63 - 1) (by decide) (by decide) (by decide)⟩

/-- C9 counterexample: on the Darwin variant, an `EBUSY` failure with 1 byte of
partial progress does not return the partial byte count (nor a retry outcome):
it returns the hard descriptor-error sentinel, losing the partial progress. -/
theorem darwin_ebusy_loses_progress :
    (MHD_send_sendfile_ plainPlat .darwin (2 ^ 63 - 1) baseConn ⟨true, .EBUSY, 1⟩
      true true true).1 = MHD_ERR_BADF_
    ∧ (MHD_send_sendfile_ plainPlat .darwin (2 ^ 63 - 1) baseConn ⟨true, .EBUSY, 1⟩
      true true true).1 ≠ (1 : Int)
    ∧ (MHD_send_sendfile_ plainPlat .darwin (2 ^ 63 - 1) baseConn ⟨true, .EBUSY, 1⟩
      true true true).1 ≠ MHD_ERR_AGAIN_ := by
  exact ⟨by decide, by decide, by decide⟩

/-- C9 (amended): partial progress is preserved for the platform-specific set of
temporary errors — `EAGAIN`/`EINTR`/`EBUSY` on the FreeBSD variant but only
`EAGAIN`/`EINTR` on the Darwin variant: within that set, `MHD_send_sendfile_`
returns the partial byte count when it is non-zero and the retry sentinel when
it is zero; on Darwin, `EBUSY` instead returns the hard descriptor-error
sentinel. -/
theorem sendfile_temporary_keeps_progress (plat : Platform) (M : Nat)
    (c : Connection) (sf : SfRes) (o1 o2 o3 : Bool)
    (hoff : ¬ M < sendfile_offsetu64 c) (hfail : sf.fail = true) :
    ((sf.err = .EAGAIN ∨ sf.err = .EINTR ∨ sf.err = .EBUSY) →
      (sf.bytes ≠ 0 →
        (MHD_send_sendfile_ plat .freebsd M c sf o1 o2 o3).1 = Int.ofNat sf.bytes)
      ∧ (sf.bytes = 0 →
        (MHD_send_sendfile_ plat .freebsd M c sf o1 o2 o3).1 = MHD_ERR_AGAIN_))
    ∧ ((sf.err = .EAGAIN ∨ sf.err = .EINTR) →
      (sf.bytes ≠ 0 →
        (MHD_send_sendfile_ plat .darwin M c sf o1 o2 o3).1 = Int.ofNat sf.bytes)
      ∧ (sf.bytes = 0 →
        (MHD_send_sendfile_ plat .darwin M c sf o1 o2 o3).1 = MHD_ERR_AGAIN_))
    ∧ (sf.err = .EBUSY →
      (MHD_send_sendfile_ plat .darwin M c sf o1 o2 o3).1 = MHD_ERR_BADF_) := by
  refine ⟨?_, ?_, ?_⟩
  · intro h
    unfold MHD_send_sendfile_
    dsimp only
    simp only [sendfile_offsetu64_pre, sendfile_left_pre, sendfile_send_size_pre]
    rw [if_neg hoff]
    rcases h with h | h | h <;>
      exact ⟨fun hb => by simp [h, hfail, hb], fun hb => by simp [h, hfail, hb]⟩
  · intro h
    unfold MHD_send_sendfile_
    dsimp only
    simp only [sendfile_offsetu64_pre, sendfile_left_pre, sendfile_send_size_pre]
    rw [if_neg hoff]
    rcases h with h | h <;>
      exact ⟨fun hb => by simp [h, hfail, hb], fun hb => by simp [h, hfail, hb]⟩
  · intro h
    unfold MHD_send_sendfile_
    dsimp only
    simp only [sendfile_offsetu64_pre, sendfile_left_pre, sendfile_send_size_pre]
    rw [if_neg hoff]
    simp [h, hfail]

/-- C9 witness: the amended behavior evaluated concretely — FreeBSD `EAGAIN` with
3 partial bytes returns 3; Darwin `EINTR` with no progress returns the retry
sentinel. -/
theorem sendfile_temporary_keeps_progress_witness :
    (¬ (2 ^ 63 - 1 : Nat) < sendfile_offsetu64 baseConn)
    ∧ (MHD_send_sendfile_ plainPlat .freebsd (2 ^ 63 - 1) baseConn ⟨true, .EAGAIN, 3⟩
        true true true).1 = Int.ofNat 3
    ∧ (MHD_send_sendfile_ plainPlat .darwin (2 ^ 63 - 1) baseConn ⟨true, .EINTR, 0⟩
        true true true).1 = MHD_ERR_AGAIN_ :=
  ⟨by decide,
   ((sendfile_temporary_keeps_progress plainPlat (2 ^ 63 - 1) baseConn ⟨true, .EAGAIN, 3⟩
     true true true (by decide) rfl).1 (Or.inl rfl)).1 (by decide),
   ((sendfile_temporary_keeps_progress plainPlat (2 ^ 63 - 1) baseConn ⟨true, .EINTR, 0⟩
     true true true (by decide) rfl).2.1 (Or.inr rfl)).2 rfl⟩
